import Mathlib

/-!
Shallow embedding of the scheduling and auto-reply orchestration subsystem of
the dashboard-automation backend, with proofs of the testable properties of
its specification.

The embedded functions follow, branch by branch, the Python sources
`app/services/scheduler_service.py`, `app/services/instagram_auto_reply_service.py`
and `app/services/bulk_composer_scheduler.py`.  External adapters (the
Instagram/Facebook clients, the Groq text generator, the Cloudinary uploader)
are modelled as oracle functions supplied through environment records, since
the specification treats them as black boxes with a success/failure contract.
Database sessions are modelled explicitly where it matters: a function returns
the row state as committed at its exit point, so mutations pending in a
session that returns without committing are discarded.

Machine times are modelled as integers (seconds); Python datetimes, which can
be offset-naive or offset-aware and whose comparison across the two kinds
raises `TypeError`, are modelled by the two-constructor type `PyTime`.
-/

namespace DashAuto

/-- Python truthiness of an optional string: `None` and `""` are falsy. -/
def truthyOpt : Option String → Bool
  | none => false
  | some s => !s.data.isEmpty

/-- Status column of a `ScheduledPost` row. -/
inductive PStatus
  | scheduled
  | ready
  | posted
  | failed
deriving DecidableEq

/-- Value of the `post_type` column of a `ScheduledPost` row. -/
inductive PostKind
  | photo
  | carousel
  | reel
  | text
deriving DecidableEq

/-- A `ScheduledPost` row, with the columns the scheduler loop reads/writes. -/
structure SPost where
  status : PStatus
  isActive : Bool
  platform : String
  scheduledDatetime : Int
  prompt : String
  postType : PostKind
  imageUrl : Option String
  mediaUrls : List String
  videoUrl : Option String
  lastExecuted : Option Int
  postId : Option String
  socialAccountId : Nat
deriving DecidableEq

/-- A `SocialAccount` row, with the columns the loops read.  `pageAccessToken`
is `platform_data.get("page_access_token")`; `accessToken` is the
`access_token` column. -/
structure SAccount where
  id : Nat
  platform : String
  isConnected : Bool
  accessToken : Option String
  pageAccessToken : Option String
  platformUserId : Option String
deriving DecidableEq

/-- Outcome of one Cloudinary upload call made for a base64 image: success
with the hosted URL, a failure result, or a raised exception. -/
inductive UpRes
  | ok (url : String)
  | err
  | exn
deriving DecidableEq

/-- Outcome of one platform create-post call: success with the returned
`post_id or creation_id` value, a result whose `success` field is falsy,
or a raised exception. -/
inductive CallRes
  | ok (pid : Option String)
  | fail
  | exn
deriving DecidableEq

/-- Oracle environment for one run of the Due-Post scheduler.  `genUpload`
models `generate_and_upload_image`, which catches its own exceptions and
returns success-with-URL or failure. -/
structure SEnv where
  now : Int
  uploadBase64 : String → UpRes
  genUpload : String → Option String
  createPost : SPost → CallRes

/-- Terminal failure transition used throughout `execute_scheduled_instagram_post`:
`status="failed"`, `is_active=False`, `last_executed=utcnow()`, commit. -/
def failNow (now : Int) (p : SPost) : SPost :=
  { p with status := .failed, isActive := false, lastExecuted := some now }

/-- Character-list version of Python `hay.startswith(needle)`. -/
def isPrefL : List Char → List Char → Bool
  | [], _ => true
  | _ :: _, [] => false
  | a :: as, b :: bs => a == b && isPrefL as bs

/-- Combined guard `scheduled_post.image_url and self.is_base64_image(...)`
(scheduler_service.py:170): a non-null string starting with `data:image/`. -/
def base64Guard : Option String → Bool
  | none => false
  | some s => isPrefL ("data:image/" : String).data s.data

/-- Number of carousel images to generate (scheduler_service.py:215):
`min(5, max(3, len(prompt) // 100 + 3))`. -/
def numImages (prompt : String) : Nat :=
  min 5 (max 3 (prompt.data.length / 100 + 3))

/-- Variation prompt for the i-th generated carousel image
(scheduler_service.py:220): `f"{prompt} - variation {i+1}"`. -/
def variationPrompt (prompt : String) (i : Nat) : String :=
  prompt ++ " - variation " ++ toString (i + 1)

/-- Prompts sent to the image generator when a carousel has no media list. -/
def carouselPrompts (prompt : String) : List String :=
  (List.range (numImages prompt)).map (variationPrompt prompt)

/-- URLs of the successful generations among the carousel generator calls. -/
def carouselUrls (gen : String → Option String) (prompt : String) : List String :=
  (carouselPrompts prompt).filterMap gen

/-- Base64-to-Cloudinary conversion block for photo posts
(scheduler_service.py:170-193): on upload success the hosted URL replaces
`image_url` and is committed; on failure or exception the row is marked
failed. -/
def photoConv (env : SEnv) (p : SPost) : Except SPost SPost :=
  if base64Guard p.imageUrl then
    match env.uploadBase64 (p.imageUrl.getD "") with
    | .ok url => .ok { p with imageUrl := some url }
    | .err => .error (failNow env.now p)
    | .exn => .error (failNow env.now p)
  else .ok p

/-- AI-image generation block for photo posts without an image URL
(scheduler_service.py:194-206); `orig` is the row whose prompt is used. -/
def photoGen (env : SEnv) (p orig : SPost) : Except SPost SPost × List String :=
  if !truthyOpt p.imageUrl then
    match env.genUpload orig.prompt with
    | some url => (.ok { p with imageUrl := some url }, [orig.prompt])
    | none => (.error (failNow env.now p), [orig.prompt])
  else (.ok p, [])

/-- Media-resolution phase of `execute_scheduled_instagram_post`
(scheduler_service.py:163-265).  Returns either `Except.error f` — the row
was marked failed and committed as `f` — or `Except.ok (c, pend)` where `c`
is the row as committed so far and `pend` the pending session state; paired
with the list of prompts sent to `generate_and_upload_image`. -/
def mediaStep (env : SEnv) (p : SPost) : Except SPost (SPost × SPost) × List String :=
  match p.postType with
  | .photo =>
    match photoConv env p with
    | .error f => (.error f, [])
    | .ok p1 =>
      match photoGen env p1 p with
      | (.error f, tr) => (.error f, tr)
      | (.ok p2, tr) =>
        if truthyOpt p2.imageUrl then (.ok (p1, p2), tr)
        else (.error (failNow env.now p2), tr)
  | .carousel =>
    if p.mediaUrls.isEmpty then
      if 3 ≤ (carouselUrls env.genUpload p.prompt).length then
        if !({ p with mediaUrls := carouselUrls env.genUpload p.prompt } : SPost).mediaUrls.isEmpty then
          (.ok (p, { p with mediaUrls := carouselUrls env.genUpload p.prompt }),
            carouselPrompts p.prompt)
        else
          (.error (failNow env.now { p with mediaUrls := carouselUrls env.genUpload p.prompt }),
            carouselPrompts p.prompt)
      else (.error (failNow env.now p), carouselPrompts p.prompt)
    else
      if !p.mediaUrls.isEmpty then (.ok (p, p), [])
      else (.error (failNow env.now p), [])
  | .reel =>
    if !truthyOpt p.videoUrl then (.error (failNow env.now p), [])
    else
      if truthyOpt p.videoUrl then (.ok (p, p), [])
      else (.error (failNow env.now p), [])
  | .text => (.error (failNow env.now p), [])

/-- One run of `execute_scheduled_instagram_post` (scheduler_service.py:148-340)
on a single row.  Returns the row as committed when the coroutine returns,
the list of prompts sent to the image generator, and whether a platform
submission call was made. -/
def execPostT (env : SEnv) (findAcct : Nat → Option SAccount) (p : SPost) :
    SPost × List String × Bool :=
  if p.prompt.data.isEmpty then (failNow env.now p, [], false)
  else
    match mediaStep env p with
    | (.error f, tr) => (f, tr, false)
    | (.ok (c, pend), tr) =>
      match findAcct p.socialAccountId with
      | none => (c, tr, false)
      | some a =>
        if !a.isConnected then (c, tr, false)
        else if !(truthyOpt a.pageAccessToken && truthyOpt a.platformUserId) then
          ({ pend with status := .failed }, tr, false)
        else
          match pend.postType with
          | .text => ({ pend with status := .failed }, tr, false)
          | _ =>
            match env.createPost pend with
            | .ok pid =>
              ({ pend with status := .posted, postId := pid, isActive := false,
                           lastExecuted := some env.now }, tr, true)
            | .fail =>
              ({ pend with status := .failed, isActive := false,
                           lastExecuted := some env.now }, tr, true)
            | .exn =>
              ({ pend with status := .failed, isActive := false,
                           lastExecuted := some env.now }, tr, true)

/-- Committed row state after one run of `execute_scheduled_instagram_post`. -/
def execPost (env : SEnv) (findAcct : Nat → Option SAccount) (p : SPost) : SPost :=
  (execPostT env findAcct p).1

/-- Due-post query of `process_scheduled_posts` (scheduler_service.py:76-81):
status in {scheduled, ready}, platform instagram, due, active. -/
def isDue (now : Int) (p : SPost) : Bool :=
  (p.status == .scheduled || p.status == .ready) && p.platform == "instagram"
    && decide (p.scheduledDatetime ≤ now) && p.isActive

/-- One Due-Post Scheduler tick over the `ScheduledPost` store. -/
def processScheduledPosts (env : SEnv) (findAcct : Nat → Option SAccount)
    (posts : List SPost) : List SPost :=
  posts.map (fun p => if isDue env.now p then execPost env findAcct p else p)

/-- The owning account is missing or not connected (the skip case of
scheduler_service.py:271-276). -/
def accountGone (findAcct : Nat → Option SAccount) (p : SPost) : Bool :=
  match findAcct p.socialAccountId with
  | none => true
  | some a => !a.isConnected

/-- Python datetime value: offset-naive or offset-aware, with its instant. -/
inductive PyTime
  | naive (t : Int)
  | aware (t : Int)
deriving DecidableEq

/-- Instant carried by a `PyTime`, for speaking about which moment it denotes. -/
def PyTime.instant : PyTime → Int
  | .naive t => t
  | .aware t => t

/-- Python comparison `a > b` on datetimes: comparing an offset-aware value
with an offset-naive one raises `TypeError`, modelled as `Except.error`. -/
def pyGt : PyTime → PyTime → Except Unit Bool
  | .naive a, .naive b => .ok (decide (b < a))
  | .aware a, .aware b => .ok (decide (b < a))
  | .naive _, .aware _ => .error ()
  | .aware _, .naive _ => .error ()

/-- Shape of the `timestamp` string attached to a fetched comment: absent or
empty, unparseable, valid ISO with no offset, or valid ISO ending in `Z`,
`+0000`, or an already-Python-compatible offset such as `+00:00`. -/
inductive TsStr
  | empty
  | invalid
  | isoNaive (t : Int)
  | isoZ (t : Int)
  | isoPlus0000 (t : Int)
  | isoOffset (t : Int)
deriving DecidableEq

/-- Embedding of `parse_instagram_timestamp`
(instagram_auto_reply_service.py:501-510): a trailing `Z` or `+0000` is
rewritten to `+00:00` and the string is handed to `datetime.fromisoformat`,
modelled as: an offset suffix yields an offset-aware value, no suffix yields
a naive value, anything else raises. -/
def parseInstagramTimestamp : TsStr → Except Unit PyTime
  | .isoZ t => .ok (.aware t)
  | .isoPlus0000 t => .ok (.aware t)
  | .isoOffset t => .ok (.aware t)
  | .isoNaive t => .ok (.naive t)
  | .empty => .error ()
  | .invalid => .error ()

/-- A fetched Instagram comment (transient, not persisted). -/
structure Comment where
  id : String
  text : String
  fromId : Option String
  fromUsername : Option String
  timestamp : TsStr
  mediaId : Option String
deriving DecidableEq

/-- Watermark filter of `_process_post_comments`
(instagram_auto_reply_service.py:157-178): an absent timestamp is included;
a parse failure is included; a comparison failure (the `TypeError` raised on
aware-vs-naive comparison) is caught by the same handler and included;
otherwise the comment is kept iff its time is strictly greater than
`last_check`. -/
def keepComment (lastCheck : PyTime) (c : Comment) : Bool :=
  match c.timestamp with
  | .empty => true
  | ts =>
    match parseInstagramTimestamp ts with
    | .error _ => true
    | .ok t =>
      match pyGt t lastCheck with
      | .error _ => true
      | .ok b => b

/-- Lower-cased character list of a string: Python `s.lower()` viewed as data. -/
def lowerData (s : String) : List Char :=
  s.data.map Char.toLower

/-- Character-list version of Python `needle in hay`. -/
def isSubL (needle : List Char) : List Char → Bool
  | [] => needle.isEmpty
  | c :: rest => isPrefL needle (c :: rest) || isSubL needle rest

/-- The fixed stock-phrase list `ai_indicators`
(instagram_auto_reply_service.py:280-301). -/
def aiIndicators : List String :=
  ["thanks for your comment",
   "we appreciate your engagement",
   "thank you for your comment",
   "we\x27re glad you",
   "thanks for sharing",
   "we love hearing from you",
   "thanks! we\x27re",
   "we\x27re excited",
   "you can find it",
   "let us know if",
   "you\x27re welcome",
   "we appreciate your",
   "thanks for the",
   "thank you so much",
   "we\x27re so glad you",
   "we love that you",
   "feel free to reach out",
   "don\x27t hesitate to contact",
   "we\x27d love to hear",
   "we\x27re here to help"]

/-- The `ai_mention_patterns` list (instagram_auto_reply_service.py:314-320). -/
def aiMentionPatterns : List String :=
  ["thanks for your comment",
   "we appreciate your",
   "thank you for",
   "we\x27re glad you",
   "we love hearing"]

/-- Embedding of `_is_ai_response` (instagram_auto_reply_service.py:271-328). -/
def isAiResponse (message : String) : Bool :=
  if message.data.isEmpty then false
  else if aiIndicators.any (fun ind => isSubL ind.data (lowerData message)) then true
  else if message.data.contains '@'
      && aiMentionPatterns.any (fun pat => isSubL pat.data (lowerData message)) then true
  else false

/-- In-process replied-comments cache `_replied_comments`:
comment id paired with the utcnow instant the reply was recorded at. -/
abbrev ReplCache := List (String × Int)

/-- Embedding of `_has_replied_to_comment`
(instagram_auto_reply_service.py:330-356): a cache hit younger than 24 hours
answers true; an expired hit is deleted and the answer is false. -/
def hasReplied (now : Int) (cache : ReplCache) (commentId : String) :
    Bool × ReplCache :=
  match cache.find? (fun e => e.1 == commentId) with
  | none => (false, cache)
  | some e =>
    if now - e.2 < 86400 then (true, cache)
    else (false, cache.filter (fun x => !(x.1 == commentId)))

/-- Embedding of `_mark_comment_as_replied`
(instagram_auto_reply_service.py:358-363). -/
def markReplied (now : Int) (cache : ReplCache) (commentId : String) : ReplCache :=
  (commentId, now) :: cache.filter (fun x => !(x.1 == commentId))

/-- The `rule_type` column of an `AutomationRule` row. -/
inductive RuleType
  | autoReply
  | other
deriving DecidableEq

/-- An `AutomationRule` row, with the columns the engine reads/writes.
`selectedInstagramPostIds` is `actions.get("selected_instagram_post_ids", [])`. -/
structure Rule where
  ruleType : RuleType
  isActive : Bool
  socialAccountId : Nat
  selectedInstagramPostIds : List String
  responseTemplate : Option String
  lastExecutionAt : Option PyTime
  successCount : Nat
  errorCount : Nat
  lastSuccessAt : Option Int
  lastErrorAt : Option Int
  lastErrorMessage : Option String
deriving DecidableEq

/-- Outcome of one `instagram_service.post_comment` call: success, a result
whose `success` field is falsy (carrying its optional `error` value), or a
raised exception. -/
inductive ReplyRes
  | ok
  | fail (err : Option String)
  | exn (msg : String)
deriving DecidableEq

/-- Oracle environment for one run of the Instagram Auto-Reply engine.
`shuffle` models `random.shuffle`; `groqReply` models
`groq_service.generate_auto_reply(comment_text, context)`, returning the
generated content on success and nothing on failure or exception. -/
structure REnv where
  now : Int
  getComments : String → List Comment
  groqReply : String → String → Option String
  postComment : String → String → String → ReplyRes
  shuffle : List String → List String

/-- Fallback reply returned when Groq reply generation fails or raises
(instagram_auto_reply_service.py:494 and 499). -/
def fallbackReply (name : String) : String :=
  "@" ++ name ++ " Thanks for your comment! We appreciate your engagement. 😊"

/-- Embedding of `_generate_ai_reply` (instagram_auto_reply_service.py:437-499).
The response template only shapes an unused local prompt string in the source,
so it does not appear here; on success the commenter is mentioned by
prepending `@name` unless the name already occurs case-insensitively. -/
def generateAiReply (env : REnv) (commentText name : String) : String :=
  let context := "Instagram comment by " ++ name ++ ": " ++ commentText
  match env.groqReply commentText context with
  | some content =>
    if isSubL (lowerData name) (lowerData content) then content
    else "@" ++ name ++ " " ++ content
  | none => fallbackReply name

/-- Media-id resolution of `_generate_and_post_reply`
(instagram_auto_reply_service.py:380-395): the comment's `media_id` field,
else the part of the comment id before `_`, else the rule's first selected
post id, else nothing. -/
def resolveMediaId (rule : Rule) (c : Comment) : Option String :=
  if truthyOpt c.mediaId then c.mediaId
  else if c.id.data.contains '_' then some ((c.id.splitOn "_").headD "")
  else
    match rule.selectedInstagramPostIds with
    | x :: _ => some x
    | [] => none

/-- Record of one actual call to `instagram_service.post_comment`, with the
`instagram_user_id` argument the caller was holding. -/
structure ReplyCall where
  mediaId : String
  replyText : String
  igUserId : Option String
  comment : Comment
  outcome : ReplyRes
deriving DecidableEq

/-- Embedding of `_generate_and_post_reply`
(instagram_auto_reply_service.py:367-435): resolve the media id (giving up
silently when impossible), generate the reply text, post it, and update the
rule counters and the replied cache according to the outcome. -/
def genAndPostReply (env : REnv) (cache : ReplCache) (rule : Rule)
    (igUserId : Option String) (c : Comment) :
    Rule × ReplCache × Option ReplyCall :=
  match resolveMediaId rule c with
  | none => (rule, cache, none)
  | some mid =>
    let name := c.fromUsername.getD "there"
    let reply := generateAiReply env c.text name
    let res := env.postComment mid reply c.id
    let call : ReplyCall :=
      { mediaId := mid, replyText := reply, igUserId := igUserId,
        comment := c, outcome := res }
    match res with
    | .ok =>
      ({ rule with successCount := rule.successCount + 1,
                   lastSuccessAt := some env.now },
       markReplied env.now cache c.id, some call)
    | .fail err =>
      ({ rule with errorCount := rule.errorCount + 1,
                   lastErrorAt := some env.now,
                   lastErrorMessage := some (err.getD "Unknown error") },
       cache, some call)
    | .exn msg =>
      ({ rule with errorCount := rule.errorCount + 1,
                   lastErrorAt := some env.now,
                   lastErrorMessage := some msg },
       cache, some call)

/-- Embedding of `_should_reply_to_comment`
(instagram_auto_reply_service.py:226-269): skip own-account comments, skip
AI-heuristic matches, skip comments found in the replied cache. -/
def shouldReplyToComment (now : Int) (cache : ReplCache)
    (igUserId : Option String) (c : Comment) : Bool × ReplCache :=
  if c.fromId == igUserId then (false, cache)
  else if isAiResponse c.text then (false, cache)
  else
    match hasReplied now cache c.id with
    | (true, cache1) => (false, cache1)
    | (false, cache1) => (true, cache1)

/-- Comment loop of `_process_post_comments`
(instagram_auto_reply_service.py:183-220): stop at the budget, skip
own-account comments, consult `_should_reply_to_comment`, and charge one
budget unit per attempted reply whatever its outcome. -/
def commentLoop (env : REnv) (igUserId : Option String) (maxReplies : Nat) :
    List Comment → Rule → ReplCache → Nat → Nat × Rule × ReplCache × List ReplyCall
  | [], rule, cache, replies => (replies, rule, cache, [])
  | c :: rest, rule, cache, replies =>
    if maxReplies ≤ replies then (replies, rule, cache, [])
    else if c.fromId == igUserId then
      commentLoop env igUserId maxReplies rest rule cache replies
    else
      match shouldReplyToComment env.now cache igUserId c with
      | (true, cache1) =>
        match genAndPostReply env cache1 rule igUserId c with
        | (rule1, cache2, call) =>
          match commentLoop env igUserId maxReplies rest rule1 cache2 (replies + 1) with
          | (r, ru, ca, calls) => (r, ru, ca, call.toList ++ calls)
      | (false, cache1) =>
        commentLoop env igUserId maxReplies rest rule cache1 replies

/-- Embedding of `_process_post_comments` (instagram_auto_reply_service.py:133-224):
fetch up to 25 comments, return 0 when there are none, filter them against the
watermark, and run the comment loop. -/
def processPostComments (env : REnv) (postId : String) (igUserId : Option String)
    (rule : Rule) (cache : ReplCache) (lastCheck : PyTime) (maxReplies : Nat) :
    Nat × Rule × ReplCache × List ReplyCall :=
  if (env.getComments postId).isEmpty then (0, rule, cache, [])
  else
    commentLoop env igUserId maxReplies
      ((env.getComments postId).filter (keepComment lastCheck)) rule cache 0

/-- Per-execution reply budget `max_replies_per_execution`
(instagram_auto_reply_service.py:99). -/
def maxRepliesPerExecution : Nat := 3

/-- Post loop of `_process_rule_auto_replies`
(instagram_auto_reply_service.py:105-123): iterate the shuffled selected posts
until the budget is exhausted, giving each post the remaining budget. -/
def ruleLoop (env : REnv) (igUserId : Option String) (lastCheck : PyTime) :
    List String → Rule → ReplCache → Nat → Rule × ReplCache × List ReplyCall × Nat
  | [], rule, cache, total => (rule, cache, [], total)
  | pid :: rest, rule, cache, total =>
    if maxRepliesPerExecution ≤ total then (rule, cache, [], total)
    else
      match processPostComments env pid igUserId rule cache lastCheck
          (maxRepliesPerExecution - total) with
      | (r, rule1, cache1, calls) =>
        if maxRepliesPerExecution ≤ total + r then (rule1, cache1, calls, total + r)
        else
          match ruleLoop env igUserId lastCheck rest rule1 cache1 (total + r) with
          | (ru, ca, cs, t) => (ru, ca, calls ++ cs, t)

/-- Result of running the engine on one rule: the committed rule row, the
in-process cache, the `post_comment` calls made, and the number of budget
units consumed. -/
structure RuleRunResult where
  rule : Rule
  cache : ReplCache
  calls : List ReplyCall
  totalReplies : Nat
deriving DecidableEq

/-- Embedding of `_process_rule_auto_replies`
(instagram_auto_reply_service.py:62-131): resolve the account (missing or
disconnected: return), read the selected posts (empty: return), check the
access token, run the shuffled post loop with the watermark
`last_execution_at or utcnow() - 10 minutes` (a naive datetime in the
never-run case, 600 seconds here), then set `last_execution_at = utcnow()`
and commit. -/
def processRule (env : REnv) (findAcct : Nat → Option SAccount) (cache : ReplCache)
    (rule : Rule) : RuleRunResult :=
  match findAcct rule.socialAccountId with
  | none => ⟨rule, cache, [], 0⟩
  | some a =>
    if !a.isConnected then ⟨rule, cache, [], 0⟩
    else if rule.selectedInstagramPostIds.isEmpty then ⟨rule, cache, [], 0⟩
    else if !truthyOpt a.accessToken then ⟨rule, cache, [], 0⟩
    else
      match ruleLoop env a.platformUserId
          (rule.lastExecutionAt.getD (.naive (env.now - 600)))
          (env.shuffle rule.selectedInstagramPostIds) rule cache 0 with
      | (rule1, cache1, calls, total) =>
        (⟨{ rule1 with lastExecutionAt := some (.naive env.now) }, cache1, calls, total⟩ :
          RuleRunResult)

/-- Query-and-filter of `process_auto_replies`
(instagram_auto_reply_service.py:30-42): active auto-reply rules whose
account exists and is an Instagram account. -/
def instagramRuleSelected (findAcct : Nat → Option SAccount) (r : Rule) : Bool :=
  r.ruleType == .autoReply && r.isActive &&
    (match findAcct r.socialAccountId with
     | none => false
     | some a => a.platform == "instagram")

/-- Embedding of `process_auto_replies` (instagram_auto_reply_service.py:23-60):
process each selected rule in order, threading the in-process cache. -/
def processAutoReplies (env : REnv) (findAcct : Nat → Option SAccount)
    (cache : ReplCache) : List Rule → List Rule × ReplCache × List ReplyCall
  | [] => ([], cache, [])
  | r :: rest =>
    if instagramRuleSelected findAcct r then
      match processRule env findAcct cache r with
      | res =>
        match processAutoReplies env findAcct res.cache rest with
        | (rs, cache1, calls) => (res.rule :: rs, cache1, res.calls ++ calls)
    else
      match processAutoReplies env findAcct cache rest with
      | (rs, cache1, calls) => (r :: rs, cache1, calls)

/-- The persisted store touched by one scheduler tick. -/
structure Store where
  posts : List SPost
  rules : List Rule
deriving DecidableEq

/-- One full scheduler tick: `process_scheduled_posts` followed by
`process_auto_replies` (scheduler_service.py:44-47), returning the committed
store and the in-process cache. -/
def fullTick (senv : SEnv) (renv : REnv) (findAcct : Nat → Option SAccount)
    (cache : ReplCache) (st : Store) : Store × ReplCache :=
  match processAutoReplies renv findAcct cache st.rules with
  | (rules1, cache1, _) =>
    (⟨processScheduledPosts senv findAcct st.posts, rules1⟩, cache1)

/-- Concrete never-run rule for the C2 failing input. -/
def c2Rule : Rule :=
  { ruleType := .autoReply, isActive := true, socialAccountId := 2,
    selectedInstagramPostIds := ["17900000000000000"],
    responseTemplate := none, lastExecutionAt := none,
    successCount := 0, errorCount := 0, lastSuccessAt := none,
    lastErrorAt := none, lastErrorMessage := none }

/-- Concrete connected Instagram account owning `c2Rule`. -/
def c2Acct : SAccount :=
  { id := 2, platform := "instagram", isConnected := true,
    accessToken := some "tok", pageAccessToken := some "tok",
    platformUserId := some "111" }

/-- Comment far older than the watermark, in the documented Instagram
timestamp format ending in `+0000`. -/
def c2Comment : Comment :=
  { id := "17900000000000000_1", text := "old comment",
    fromId := some "999", fromUsername := some "alice",
    timestamp := .isoPlus0000 5, mediaId := some "m1" }

/-- Concrete engine environment for the C2 failing input. -/
def c2REnv : REnv :=
  { now := 1000000,
    getComments := fun _ => [c2Comment],
    groqReply := fun _ _ => none,
    postComment := fun _ _ _ => .ok,
    shuffle := fun l => l }

/-- Account lookup for the C2 failing input. -/
def c2Find : Nat → Option SAccount := fun _ => some c2Acct

/-- Conditions under which `_process_rule_auto_replies` reaches its final
watermark update for a rule: account found and connected, selected posts
non-empty, access token present. -/
def ruleEngagedInner (findAcct : Nat → Option SAccount) (r : Rule) : Bool :=
  match findAcct r.socialAccountId with
  | none => false
  | some a =>
    a.isConnected && !r.selectedInstagramPostIds.isEmpty && truthyOpt a.accessToken

/-- Concrete connected Instagram account for the C8 instances. -/
def c8Acct : SAccount :=
  { id := 3, platform := "instagram", isConnected := true,
    accessToken := some "tok", pageAccessToken := some "tok",
    platformUserId := some "111" }

/-- Concrete active rule with a watermark in the past. -/
def c8Rule : Rule :=
  { ruleType := .autoReply, isActive := true, socialAccountId := 3,
    selectedInstagramPostIds := ["p1"], responseTemplate := none,
    lastExecutionAt := some (.naive 0), successCount := 0, errorCount := 0,
    lastSuccessAt := none, lastErrorAt := none, lastErrorMessage := none }

/-- Quiescent store: no posts at all, one active rule. -/
def c8Store : Store := { posts := [], rules := [c8Rule] }

/-- Scheduler environment for the C8 instances. -/
def c8SEnv : SEnv :=
  { now := 1000, uploadBase64 := fun _ => .err, genUpload := fun _ => none,
    createPost := fun _ => .fail }

/-- Engine environment for the C8 instances: no comments anywhere. -/
def c8REnv : REnv :=
  { now := 1000, getComments := fun _ => [], groqReply := fun _ _ => none,
    postComment := fun _ _ _ => .fail none, shuffle := fun l => l }

/-- Account lookup for the C8 instances. -/
def c8Find : Nat → Option SAccount := fun _ => some c8Acct

/-- Number of successful reply calls in a trace. -/
def countSuccess (calls : List ReplyCall) : Nat :=
  (calls.filter (fun call => call.outcome == .ok)).length

/-- Number of failing or raising reply calls in a trace. -/
def countFailed (calls : List ReplyCall) : Nat :=
  (calls.filter (fun call => !(call.outcome == .ok))).length

/-- Status column of a `BulkComposerContent` row. -/
inductive BStatus
  | scheduled
  | published
  | failed
deriving DecidableEq

/-- A `BulkComposerContent` row, with the columns the bulk loop reads/writes. -/
structure BPost where
  status : BStatus
  socialAccountId : Nat
  caption : String
  mediaFile : Option String
  scheduledDatetime : Int
  publishAttempts : Nat
  lastPublishAttempt : Option Int
  facebookPostId : Option String
  errorMessage : Option String
deriving DecidableEq

/-- Outcome of one Facebook post call made by the bulk loop: a result with a
truthy `id`, a result without one, or a raised exception. -/
inductive FbRes
  | ok (id : String)
  | noId
  | exn (msg : String)
deriving DecidableEq

/-- Oracle environment for the Bulk-Batch scheduler. -/
structure BEnv where
  now : Int
  fbPost : BPost → FbRes

/-- Embedding of `BulkComposerScheduler.publish_post`
(bulk_composer_scheduler.py:63-117): the account query carries
`is_connected == True`, and a missing result marks the row failed *without*
touching the attempt counter; otherwise `publish_attempts` is incremented and
`last_publish_attempt` stamped before the Facebook call, whose outcome decides
published/failed. -/
def publishPost (env : BEnv) (findAcct : Nat → Option SAccount) (p : BPost) : BPost :=
  let acct : Option SAccount :=
    match findAcct p.socialAccountId with
    | some a => if a.isConnected then some a else none
    | none => none
  match acct with
  | none =>
    { p with status := .failed, errorMessage := some "Social account not connected" }
  | some _ =>
    let p1 := { p with publishAttempts := p.publishAttempts + 1,
                       lastPublishAttempt := some env.now }
    match env.fbPost p1 with
    | .ok fid =>
      { p1 with status := .published, facebookPostId := some fid, errorMessage := none }
    | .noId =>
      { p1 with status := .failed, errorMessage := some "Facebook API returned no post ID" }
    | .exn msg =>
      { p1 with status := .failed, errorMessage := some msg }

/-- The owning account is missing or not connected, as seen by the bulk loop's
filtered query (bulk_composer_scheduler.py:66-70). -/
def bAccountGone (findAcct : Nat → Option SAccount) (p : BPost) : Bool :=
  match findAcct p.socialAccountId with
  | none => true
  | some a => !a.isConnected

/-- Transitions a `BulkComposerContent` row can undergo: being selected as due
by `process_due_posts` (bulk_composer_scheduler.py:48-57), or being reset to
scheduled and republished by `retry_failed_posts`
(bulk_composer_scheduler.py:119-139), which only selects failed rows with
fewer than 3 attempts. -/
inductive BStep : BPost → BPost → Prop
  | tick (env : BEnv) (findAcct : Nat → Option SAccount) (p : BPost)
      (hs : p.status = .scheduled) (hd : p.scheduledDatetime ≤ env.now) :
      BStep p (publishPost env findAcct p)
  | retry (env : BEnv) (findAcct : Nat → Option SAccount) (p : BPost)
      (hs : p.status = .failed) (ha : p.publishAttempts < 3) :
      BStep p (publishPost env findAcct { p with status := .scheduled })

/-- Reachability of a row state under any sequence of bulk-loop ticks and
operator-triggered retry passes. -/
def BReach : BPost → BPost → Prop := Relation.ReflTransGen BStep

/-- Concrete bulk row with no attempts yet, used for the C3 instances. -/
def c3Post : BPost :=
  { status := .scheduled, socialAccountId := 1, caption := "hello",
    mediaFile := none, scheduledDatetime := 0, publishAttempts := 0,
    lastPublishAttempt := none, facebookPostId := none, errorMessage := none }

/-- Concrete bulk environment for the C3 instances. -/
def c3Env : BEnv := { now := 100, fbPost := fun _ => .ok "fb_1" }

/-- Concrete connected account for the C3 witness. -/
def c3Acct : SAccount :=
  { id := 1, platform := "facebook", isConnected := true,
    accessToken := some "tok", pageAccessToken := none, platformUserId := some "page1" }

/-- Reachability invariant for a bulk row: the cap, and the fact that a row
that is (still or again) scheduled has fewer than 3 attempts. -/
def BInv (p : BPost) : Prop :=
  p.publishAttempts ≤ 3 ∧ (p.status = .scheduled → p.publishAttempts ≤ 2)

/-- Concrete freshly created bulk row for the C4 witness. -/
def c4Init : BPost :=
  { status := .scheduled, socialAccountId := 7, caption := "batch item",
    mediaFile := none, scheduledDatetime := 50, publishAttempts := 0,
    lastPublishAttempt := none, facebookPostId := none, errorMessage := none }

/-- Concrete due photo post whose image URL is already hosted. -/
def c1Post : SPost :=
  { status := .scheduled, isActive := true, platform := "instagram",
    scheduledDatetime := 0, prompt := "sunset", postType := .photo,
    imageUrl := some "https://cdn.example/a.jpg", mediaUrls := [], videoUrl := none,
    lastExecuted := none, postId := none, socialAccountId := 1 }

/-- Concrete connected account whose platform data lacks a page access token. -/
def c1Acct : SAccount :=
  { id := 1, platform := "instagram", isConnected := true,
    accessToken := some "tok", pageAccessToken := none,
    platformUserId := some "111" }

/-- Concrete scheduler environment for the C1 instances. -/
def c1Env : SEnv :=
  { now := 10, uploadBase64 := fun _ => .exn, genUpload := fun _ => none,
    createPost := fun _ => .fail }

/-- Account lookup for the C1 instances. -/
def c1Find : Nat → Option SAccount := fun _ => some c1Acct

/-- Concrete due carousel post with no media list for the C5 witness. -/
def c5Post : SPost :=
  { status := .scheduled, isActive := true, platform := "instagram",
    scheduledDatetime := 0, prompt := "beach", postType := .carousel,
    imageUrl := none, mediaUrls := [], videoUrl := none,
    lastExecuted := none, postId := none, socialAccountId := 4 }

/-- Concrete fully-resolvable account for the C5 witness. -/
def c5Acct : SAccount :=
  { id := 4, platform := "instagram", isConnected := true,
    accessToken := some "tok", pageAccessToken := some "tok",
    platformUserId := some "400" }

/-- Concrete scheduler environment whose generator always succeeds. -/
def c5Env : SEnv :=
  { now := 20, uploadBase64 := fun _ => .err,
    genUpload := fun s => some ("https://cdn.example/" ++ s),
    createPost := fun _ => .ok (some "pid") }

/-- Account lookup for the C5 witness. -/
def c5Find : Nat → Option SAccount := fun _ => some c5Acct

/-- The photo conversion block marks the row failed (and terminal) on error. -/
theorem photoConv_error (env : SEnv) (p f : SPost) (h : photoConv env p = .error f) :
    f = failNow env.now p := by
  unfold photoConv at h
  split at h
  · split at h
    · exact Except.noConfusion h
    · injection h with h1
      exact h1.symm
    · injection h with h1
      exact h1.symm
  · exact Except.noConfusion h

/-- The photo conversion block only touches `image_url` on success. -/
theorem photoConv_ok (env : SEnv) (p p1 : SPost) (h : photoConv env p = .ok p1) :
    p1.status = p.status ∧ p1.isActive = p.isActive ∧ p1.lastExecuted = p.lastExecuted ∧
    p1.postType = p.postType ∧ p1.socialAccountId = p.socialAccountId := by
  unfold photoConv at h
  split at h
  · split at h
    · injection h with h1
      subst h1
      exact ⟨rfl, rfl, rfl, rfl, rfl⟩
    · exact Except.noConfusion h
    · exact Except.noConfusion h
  · injection h with h1
    subst h1
    exact ⟨rfl, rfl, rfl, rfl, rfl⟩

/-- The photo generation block marks the row failed (and terminal) on error. -/
theorem photoGen_error (env : SEnv) (p orig f : SPost) (tr : List String)
    (h : photoGen env p orig = (.error f, tr)) : f = failNow env.now p := by
  unfold photoGen at h
  split at h
  · split at h
    · rw [Prod.mk.injEq] at h
      exact Except.noConfusion h.1
    · rw [Prod.mk.injEq] at h
      injection h.1 with h1
      exact h1.symm
  · rw [Prod.mk.injEq] at h
    exact Except.noConfusion h.1

/-- The photo generation block only touches `image_url` on success. -/
theorem photoGen_ok (env : SEnv) (p orig p2 : SPost) (tr : List String)
    (h : photoGen env p orig = (.ok p2, tr)) :
    p2.status = p.status ∧ p2.isActive = p.isActive ∧ p2.lastExecuted = p.lastExecuted ∧
    p2.postType = p.postType ∧ p2.socialAccountId = p.socialAccountId := by
  unfold photoGen at h
  split at h
  · split at h
    · rw [Prod.mk.injEq] at h
      injection h.1 with h1
      subst h1
      exact ⟨rfl, rfl, rfl, rfl, rfl⟩
    · rw [Prod.mk.injEq] at h
      exact Except.noConfusion h.1
  · rw [Prod.mk.injEq] at h
    injection h.1 with h1
    subst h1
    exact ⟨rfl, rfl, rfl, rfl, rfl⟩

/-- Every error exit of the media-resolution phase is a committed terminal
failure. -/
theorem mediaStep_error (env : SEnv) (p f : SPost) (tr : List String)
    (h : mediaStep env p = (.error f, tr)) :
    f.status = .failed ∧ f.isActive = false := by
  unfold mediaStep at h
  cases hk : p.postType <;> simp only [hk] at h
  case photo =>
    cases hc : photoConv env p with
    | error g =>
      rw [hc] at h
      dsimp only at h
      simp only [Prod.mk.injEq] at h
      obtain ⟨h1, h2⟩ := h
      injection h1 with h1
      rw [← h1, photoConv_error env p g hc]
      exact ⟨rfl, rfl⟩
    | ok p1 =>
      rw [hc] at h
      dsimp only at h
      rcases hg : photoGen env p1 p with ⟨eg, tg⟩
      rw [hg] at h
      cases eg with
      | error g =>
        dsimp only at h
        simp only [Prod.mk.injEq] at h
        obtain ⟨h1, h2⟩ := h
        injection h1 with h1
        rw [← h1, photoGen_error env p1 p g tg hg]
        exact ⟨rfl, rfl⟩
      | ok p2 =>
        dsimp only at h
        split at h
        · simp only [Prod.mk.injEq] at h
          exact Except.noConfusion h.1
        · simp only [Prod.mk.injEq] at h
          obtain ⟨h1, h2⟩ := h
          injection h1 with h1
          rw [← h1]
          exact ⟨rfl, rfl⟩
  case carousel =>
    split at h
    · split at h
      · split at h
        · simp only [Prod.mk.injEq] at h
          exact Except.noConfusion h.1
        · simp only [Prod.mk.injEq] at h
          obtain ⟨h1, h2⟩ := h
          injection h1 with h1
          rw [← h1]
          exact ⟨rfl, rfl⟩
      · simp only [Prod.mk.injEq] at h
        obtain ⟨h1, h2⟩ := h
        injection h1 with h1
        rw [← h1]
        exact ⟨rfl, rfl⟩
    · split at h
      · simp only [Prod.mk.injEq] at h
        exact Except.noConfusion h.1
      · simp only [Prod.mk.injEq] at h
        obtain ⟨h1, h2⟩ := h
        injection h1 with h1
        rw [← h1]
        exact ⟨rfl, rfl⟩
  case reel =>
    split at h
    · simp only [Prod.mk.injEq] at h
      obtain ⟨h1, h2⟩ := h
      injection h1 with h1
      rw [← h1]
      exact ⟨rfl, rfl⟩
    · split at h
      · simp only [Prod.mk.injEq] at h
        exact Except.noConfusion h.1
      · simp only [Prod.mk.injEq] at h
        obtain ⟨h1, h2⟩ := h
        injection h1 with h1
        rw [← h1]
        exact ⟨rfl, rfl⟩
  case text =>
    simp only [Prod.mk.injEq] at h
    obtain ⟨h1, h2⟩ := h
    injection h1 with h1
    rw [← h1]
    exact ⟨rfl, rfl⟩

/-- The media-resolution phase only touches media columns in both the
committed and the pending state, and never succeeds for a text post. -/
theorem mediaStep_ok (env : SEnv) (p c pend : SPost) (tr : List String)
    (h : mediaStep env p = (.ok (c, pend), tr)) :
    c.status = p.status ∧ c.isActive = p.isActive ∧ c.lastExecuted = p.lastExecuted ∧
    pend.status = p.status ∧ pend.isActive = p.isActive ∧
    pend.lastExecuted = p.lastExecuted ∧ pend.postType = p.postType ∧
    p.postType ≠ .text := by
  unfold mediaStep at h
  cases hk : p.postType <;> simp only [hk] at h
  case photo =>
    cases hc : photoConv env p with
    | error g =>
      rw [hc] at h
      dsimp only at h
      simp only [Prod.mk.injEq] at h
      exact Except.noConfusion h.1
    | ok p1 =>
      rw [hc] at h
      dsimp only at h
      rcases hg : photoGen env p1 p with ⟨eg, tg⟩
      rw [hg] at h
      cases eg with
      | error g =>
        dsimp only at h
        simp only [Prod.mk.injEq] at h
        exact Except.noConfusion h.1
      | ok p2 =>
        dsimp only at h
        split at h
        · simp only [Prod.mk.injEq] at h
          obtain ⟨h1, h2⟩ := h
          injection h1 with h1
          rw [Prod.mk.injEq] at h1
          obtain ⟨hc1, hp1⟩ := h1
          subst hc1
          subst hp1
          obtain ⟨a1, a2, a3, a4, a5⟩ := photoConv_ok env p p1 hc
          obtain ⟨b1, b2, b3, b4, b5⟩ := photoGen_ok env p1 p p2 tg hg
          exact ⟨a1, a2, a3, b1.trans a1, b2.trans a2, b3.trans a3,
            (b4.trans a4).trans hk, by decide⟩
        · simp only [Prod.mk.injEq] at h
          exact Except.noConfusion h.1
  case carousel =>
    split at h
    · split at h
      · split at h
        · simp only [Prod.mk.injEq] at h
          obtain ⟨h1, h2⟩ := h
          injection h1 with h1
          rw [Prod.mk.injEq] at h1
          obtain ⟨hc1, hp1⟩ := h1
          subst hc1
          subst hp1
          exact ⟨rfl, rfl, rfl, rfl, rfl, rfl, rfl, by decide⟩
        · simp only [Prod.mk.injEq] at h
          exact Except.noConfusion h.1
      · simp only [Prod.mk.injEq] at h
        exact Except.noConfusion h.1
    · split at h
      · simp only [Prod.mk.injEq] at h
        obtain ⟨h1, h2⟩ := h
        injection h1 with h1
        rw [Prod.mk.injEq] at h1
        obtain ⟨hc1, hp1⟩ := h1
        subst hc1
        subst hp1
        exact ⟨rfl, rfl, rfl, rfl, rfl, rfl, hk, by decide⟩
      · simp only [Prod.mk.injEq] at h
        exact Except.noConfusion h.1
  case reel =>
    split at h
    · simp only [Prod.mk.injEq] at h
      exact Except.noConfusion h.1
    · split at h
      · simp only [Prod.mk.injEq] at h
        obtain ⟨h1, h2⟩ := h
        injection h1 with h1
        rw [Prod.mk.injEq] at h1
        obtain ⟨hc1, hp1⟩ := h1
        subst hc1
        subst hp1
        exact ⟨rfl, rfl, rfl, rfl, rfl, rfl, hk, by decide⟩
      · simp only [Prod.mk.injEq] at h
        exact Except.noConfusion h.1
  case text =>
    simp only [Prod.mk.injEq] at h
    exact Except.noConfusion h.1

/-- Concatenation of strings concatenates their character data. -/
theorem data_append (a b : String) : (a ++ b).data = a.data ++ b.data := rfl

/-- Lower-casing distributes over string concatenation. -/
theorem lowerData_append (a b : String) :
    lowerData (a ++ b) = lowerData a ++ lowerData b := by
  simp [lowerData, data_append]

/-- A substring of the right part is a substring of the whole. -/
theorem isSubL_append_right (n h1 h2 : List Char) (h : isSubL n h2 = true) :
    isSubL n (h1 ++ h2) = true := by
  induction h1 with
  | nil => simpa
  | cons c rest ih =>
    simp only [List.cons_append, isSubL, Bool.or_eq_true]
    exact Or.inr ih

/-- C9: the fallback reply produced when AI reply generation fails or raises
is itself classified as an AI response by `_is_ai_response`, whatever the
commenter name, so the engine never replies to its own fallback replies. -/
theorem C9_theorem (name : String) : isAiResponse (fallbackReply name) = true := by
  have hd : (fallbackReply name).data =
      '@' :: (name.data ++
        (" Thanks for your comment! We appreciate your engagement. 😊" : String).data) := rfl
  have hlow : lowerData (fallbackReply name) =
      lowerData ("@" ++ name) ++
        lowerData " Thanks for your comment! We appreciate your engagement. 😊" :=
    lowerData_append ("@" ++ name) _
  have hsub : isSubL ("thanks for your comment" : String).data
      (lowerData (fallbackReply name)) = true := by
    rw [hlow]
    exact isSubL_append_right _ _ _ (by decide)
  have hany : aiIndicators.any
      (fun ind => isSubL ind.data (lowerData (fallbackReply name))) = true := by
    refine List.any_eq_true.mpr ⟨"thanks for your comment", ?_, hsub⟩
    unfold aiIndicators
    exact List.mem_cons_self _ _
  unfold isAiResponse
  rw [hd, hany]
  simp

/-- C2 (code bug evaluated): for a never-run rule the watermark is the
offset-naive `utcnow() - 10 minutes`; a far older comment in the `+0000`
format parses to an offset-aware value, so the `>` comparison raises
`TypeError` and the handler includes the comment, which is then replied to —
although its parseable timestamp is not greater than the watermark. -/
theorem C2_code_bug :
    parseInstagramTimestamp c2Comment.timestamp = .ok (.aware 5) ∧
    (PyTime.aware 5).instant < (PyTime.naive (c2REnv.now - 600)).instant ∧
    keepComment (.naive (c2REnv.now - 600)) c2Comment = true ∧
    (processRule c2REnv c2Find [] c2Rule).calls.map (fun call => call.comment) =
      [c2Comment] := by
  refine ⟨rfl, by decide, rfl, ?_⟩
  decide

/-- A true answer from `_should_reply_to_comment` certifies that the comment
is neither an own-account comment nor an AI-heuristic match. -/
theorem shouldReply_true (now : Int) (cache : ReplCache) (u : Option String)
    (c : Comment) (cache1 : ReplCache)
    (h : shouldReplyToComment now cache u c = (true, cache1)) :
    (c.fromId == u) = false ∧ isAiResponse c.text = false := by
  unfold shouldReplyToComment at h
  by_cases h1 : (c.fromId == u) = true
  · simp [h1] at h
  · by_cases h2 : isAiResponse c.text = true
    · simp [h1, h2] at h
    · exact ⟨Bool.not_eq_true _ ▸ h1, Bool.not_eq_true _ ▸ h2⟩

/-- Every call record produced by `_generate_and_post_reply` carries the
comment and the `instagram_user_id` it was invoked with. -/
theorem genAndPost_call (env : REnv) (cache : ReplCache) (rule : Rule)
    (u : Option String) (c : Comment) :
    ∀ call ∈ (genAndPostReply env cache rule u c).2.2.toList,
      call.comment = c ∧ call.igUserId = u := by
  unfold genAndPostReply
  cases hm : resolveMediaId rule c with
  | none => simp
  | some mid =>
    simp only
    cases env.postComment mid (generateAiReply env c.text (c.fromUsername.getD "there")) c.id <;>
      simp

/-- Every call made by the comment loop is for a comment that is not an
AI-heuristic match and not from the engine's own account. -/
theorem commentLoop_calls (env : REnv) (u : Option String) (m : Nat)
    (cs : List Comment) (rule : Rule) (cache : ReplCache) (r : Nat) :
    ((commentLoop env u m cs rule cache r).2.2.2).all
      (fun call => call.igUserId == u && !isAiResponse call.comment.text
        && !(call.comment.fromId == u)) = true := by
  induction cs generalizing rule cache r with
  | nil => simp [commentLoop]
  | cons c rest ih =>
    simp only [commentLoop]
    split
    · simp
    · split
      · exact ih rule cache r
      · split
        next cache1 heq =>
          dsimp only
          simp only [List.all_append, Bool.and_eq_true]
          constructor
          · refine List.all_eq_true.mpr (fun cl hcl => ?_)
            obtain ⟨hcom, hig⟩ := genAndPost_call env cache1 rule u c cl hcl
            obtain ⟨hown, hai⟩ := shouldReply_true env.now cache u c cache1 heq
            simp [hcom, hig, hown, hai]
          · exact ih _ _ (r + 1)
        next cache1 heq => exact ih rule cache1 r

/-- Lifting of `commentLoop_calls` to `_process_post_comments`. -/
theorem processPostComments_calls (env : REnv) (postId : String)
    (u : Option String) (rule : Rule) (cache : ReplCache) (lc : PyTime) (m : Nat) :
    ((processPostComments env postId u rule cache lc m).2.2.2).all
      (fun call => call.igUserId == u && !isAiResponse call.comment.text
        && !(call.comment.fromId == u)) = true := by
  unfold processPostComments
  split
  · simp
  · exact commentLoop_calls env u m ((env.getComments postId).filter (keepComment lc)) rule cache 0

/-- Lifting of the call property to the per-rule post loop. -/
theorem ruleLoop_calls (env : REnv) (u : Option String) (lc : PyTime)
    (pids : List String) (rule : Rule) (cache : ReplCache) (total : Nat) :
    ((ruleLoop env u lc pids rule cache total).2.2.1).all
      (fun call => call.igUserId == u && !isAiResponse call.comment.text
        && !(call.comment.fromId == u)) = true := by
  induction pids generalizing rule cache total with
  | nil => simp [ruleLoop]
  | cons pid rest ih =>
    simp only [ruleLoop]
    split
    · simp
    · split
      · exact processPostComments_calls env pid u rule cache lc
          (maxRepliesPerExecution - total)
      · dsimp only
        simp only [List.all_append, Bool.and_eq_true]
        exact ⟨processPostComments_calls env pid u rule cache lc
          (maxRepliesPerExecution - total), ih _ _ _⟩

/-- Every call made while processing one rule is for a comment that is not an
AI-heuristic match and whose author is not the account whose
`platform_user_id` the engine was holding. -/
theorem processRule_calls (env : REnv) (findAcct : Nat → Option SAccount)
    (cache : ReplCache) (rule : Rule) :
    ((processRule env findAcct cache rule).calls).all
      (fun call => !isAiResponse call.comment.text
        && !(call.comment.fromId == call.igUserId)) = true := by
  unfold processRule
  split
  · simp
  next a ha =>
    split
    · simp
    · split
      · simp
      · split
        · simp
        · dsimp only
          have hall := ruleLoop_calls env a.platformUserId
            (rule.lastExecutionAt.getD (.naive (env.now - 600)))
            (env.shuffle rule.selectedInstagramPostIds) rule cache 0
          refine List.all_eq_true.mpr (fun cl hcl => ?_)
          have hc := List.all_eq_true.mp hall cl hcl
          simp only [Bool.and_eq_true] at hc ⊢
          obtain ⟨⟨h1, h2⟩, h3⟩ := hc
          rw [beq_iff_eq] at h1
          rw [h1]
          exact ⟨h2, h3⟩

/-- C6: for every comment whose text matches the AI-response heuristic, the
engine never calls the reply-posting operation — equivalently, every
`post_comment` call made while processing a rule is for a comment whose text
the heuristic classifies as not-AI. -/
theorem C6_theorem (env : REnv) (findAcct : Nat → Option SAccount)
    (cache : ReplCache) (rule : Rule) :
    ((processRule env findAcct cache rule).calls).all
      (fun call => !isAiResponse call.comment.text) = true := by
  have h := processRule_calls env findAcct cache rule
  refine List.all_eq_true.mpr (fun cl hcl => ?_)
  have hc := List.all_eq_true.mp h cl hcl
  simp only [Bool.and_eq_true] at hc
  exact hc.1

/-- C7: for every comment whose author id equals the platform user id of the
rule's own account (the `instagram_user_id` every call was made with), the
engine never calls the reply-posting operation — equivalently, every
`post_comment` call is for a comment whose author differs from it. -/
theorem C7_theorem (env : REnv) (findAcct : Nat → Option SAccount)
    (cache : ReplCache) (rule : Rule) :
    ((processRule env findAcct cache rule).calls).all
      (fun call => !(call.comment.fromId == call.igUserId)) = true := by
  have h := processRule_calls env findAcct cache rule
  refine List.all_eq_true.mpr (fun cl hcl => ?_)
  have hc := List.all_eq_true.mp h cl hcl
  simp only [Bool.and_eq_true] at hc
  exact hc.2

/-- With no comments on any post, the post loop consumes no budget and makes
no calls. -/
theorem ruleLoop_noComments (env : REnv) (u : Option String) (lc : PyTime)
    (pids : List String) (rule : Rule) (cache : ReplCache) (total : Nat)
    (hc : ∀ pid, env.getComments pid = []) :
    ruleLoop env u lc pids rule cache total = (rule, cache, [], total) := by
  induction pids generalizing rule cache total with
  | nil => simp [ruleLoop]
  | cons pid rest ih =>
    simp only [ruleLoop]
    split
    · rfl
    · have hp : processPostComments env pid u rule cache lc
          (maxRepliesPerExecution - total) = (0, rule, cache, []) := by
        unfold processPostComments
        rw [hc pid]
        simp
      rw [hp]
      dsimp only
      split
      · simp
      · rw [ih rule cache (total + 0)]
        simp

/-- With no comments anywhere, processing a rule only advances the watermark
(when the rule is engaged at all). -/
theorem processRule_quiescent (env : REnv) (findAcct : Nat → Option SAccount)
    (cache : ReplCache) (rule : Rule) (hc : ∀ pid, env.getComments pid = []) :
    processRule env findAcct cache rule =
      (if ruleEngagedInner findAcct rule then
        ⟨{ rule with lastExecutionAt := some (.naive env.now) }, cache, [], 0⟩
      else (⟨rule, cache, [], 0⟩ : RuleRunResult)) := by
  unfold processRule ruleEngagedInner
  cases hf : findAcct rule.socialAccountId with
  | none => simp
  | some a =>
    dsimp only
    cases hcon : a.isConnected
    · simp [hcon]
    · cases hsel : rule.selectedInstagramPostIds.isEmpty
      · cases htok : truthyOpt a.accessToken
        · simp [hcon, hsel, htok]
        · simp [hcon, hsel, htok,
            ruleLoop_noComments env a.platformUserId
              (rule.lastExecutionAt.getD (.naive (env.now - 600)))
              (env.shuffle rule.selectedInstagramPostIds) rule cache 0 hc]
      · simp [hcon, hsel]

/-- With no comments anywhere, one engine run maps each selected-and-engaged
rule to itself with an advanced watermark and leaves everything else alone. -/
theorem processAutoReplies_quiescent (env : REnv) (findAcct : Nat → Option SAccount)
    (cache : ReplCache) (rules : List Rule) (hc : ∀ pid, env.getComments pid = []) :
    processAutoReplies env findAcct cache rules =
      (rules.map (fun r =>
        if instagramRuleSelected findAcct r && ruleEngagedInner findAcct r then
          { r with lastExecutionAt := some (.naive env.now) }
        else r), cache, []) := by
  induction rules with
  | nil => simp [processAutoReplies]
  | cons r rest ih =>
    simp only [processAutoReplies, List.map_cons]
    split
    · next hsel =>
      rw [processRule_quiescent env findAcct cache r hc]
      cases heng : ruleEngagedInner findAcct r
      · simp only [heng, Bool.false_eq_true, if_false]
        rw [ih]
        simp [hsel, heng]
      · simp only [heng, if_true]
        rw [ih]
        simp [hsel, heng]
    · next hsel =>
      rw [Bool.not_eq_true] at hsel
      rw [ih]
      simp [hsel]

/-- A Due-Post tick with no due rows changes no `ScheduledPost` row. -/
theorem processScheduledPosts_noDue (env : SEnv) (findAcct : Nat → Option SAccount)
    (posts : List SPost) (hq : ∀ p ∈ posts, isDue env.now p = false) :
    processScheduledPosts env findAcct posts = posts := by
  unfold processScheduledPosts
  induction posts with
  | nil => rfl
  | cons p rest ih =>
    simp only [List.map_cons]
    rw [hq p (List.mem_cons_self p rest)]
    simp only [Bool.false_eq_true, if_false]
    rw [ih (fun q hq2 => hq q (List.mem_cons_of_mem p hq2))]

/-- C8 counterexample: a quiescent store (no due posts, no comments) is
changed by one full tick — the active rule's `last_execution_at` watermark is
advanced unconditionally, so the tick is not idempotent on the store. -/
theorem C8_counterexample :
    c8Store.posts = [] ∧
    c8REnv.getComments "p1" = [] ∧
    (fullTick c8SEnv c8REnv c8Find [] c8Store).1 ≠ c8Store := by
  refine ⟨rfl, rfl, ?_⟩
  decide

/-- C8 (amended): one full tick on a quiescent store (no due `ScheduledPost`
rows, no comments on any post) leaves every `ScheduledPost` unchanged and
leaves the in-process cache unchanged, and its only store change is advancing
`last_execution_at` to the tick time on every processed (active, Instagram,
connected, non-empty selection, token present) auto-reply rule. -/
theorem C8_amended (senv : SEnv) (renv : REnv) (findAcct : Nat → Option SAccount)
    (cache : ReplCache) (st : Store)
    (hq : ∀ p ∈ st.posts, isDue senv.now p = false)
    (hc : ∀ pid, renv.getComments pid = []) :
    (fullTick senv renv findAcct cache st).1.posts = st.posts ∧
    (fullTick senv renv findAcct cache st).1.rules =
      st.rules.map (fun r =>
        if instagramRuleSelected findAcct r && ruleEngagedInner findAcct r then
          { r with lastExecutionAt := some (.naive renv.now) }
        else r) ∧
    (fullTick senv renv findAcct cache st).2 = cache := by
  unfold fullTick
  rw [processAutoReplies_quiescent renv findAcct cache st.rules hc]
  exact ⟨processScheduledPosts_noDue senv findAcct st.posts hq, rfl, rfl⟩

/-- C8 witness: the amended statement evaluated on the concrete quiescent
store. -/
theorem C8_amended_witness :
    (fullTick c8SEnv c8REnv c8Find [] c8Store).1.posts = c8Store.posts ∧
    (fullTick c8SEnv c8REnv c8Find [] c8Store).1.rules =
      c8Store.rules.map (fun r =>
        if instagramRuleSelected c8Find r && ruleEngagedInner c8Find r then
          { r with lastExecutionAt := some (.naive c8REnv.now) }
        else r) ∧
    (fullTick c8SEnv c8REnv c8Find [] c8Store).2 = [] :=
  C8_amended c8SEnv c8REnv c8Find [] c8Store
    (fun p hp => by simp [c8Store] at hp) (fun pid => rfl)

/-- Every call is either a success or a failure. -/
theorem count_split (calls : List ReplyCall) :
    countSuccess calls + countFailed calls = calls.length := by
  unfold countSuccess countFailed
  induction calls with
  | nil => rfl
  | cons c rest ih =>
    by_cases h : (c.outcome == .ok) = true <;>
      simp [List.filter, h] <;> omega

/-- Budget accounting for the comment loop: the returned counter never
exceeds the budget, never decreases, and bounds the number of calls made. -/
theorem commentLoop_count (env : REnv) (u : Option String) (m : Nat)
    (cs : List Comment) (rule : Rule) (cache : ReplCache) (r : Nat) (h : r ≤ m) :
    r ≤ (commentLoop env u m cs rule cache r).1 ∧
    (commentLoop env u m cs rule cache r).1 ≤ m ∧
    (commentLoop env u m cs rule cache r).2.2.2.length + r ≤
      (commentLoop env u m cs rule cache r).1 := by
  induction cs generalizing rule cache r with
  | nil => simp [commentLoop, h]
  | cons c rest ih =>
    simp only [commentLoop]
    split
    · simp [h]
    · next hlt =>
      split
      · exact ih rule cache r h
      · split
        next cache1 heq =>
          rcases hG : genAndPostReply env cache1 rule u c with ⟨rule1, cache2, call⟩
          dsimp only
          have hr1 : r + 1 ≤ m := by omega
          obtain ⟨ha2, hb2, hc2⟩ := ih rule1 cache2 (r + 1) hr1
          rcases hR : commentLoop env u m rest rule1 cache2 (r + 1) with ⟨r2, ru, ca, calls⟩
          rw [hR] at ha2 hb2 hc2
          dsimp only at ha2 hb2 hc2 ⊢
          have hl : call.toList.length ≤ 1 := by cases call <;> simp
          refine ⟨by omega, hb2, ?_⟩
          rw [List.length_append]
          omega
        next cache1 heq => exact ih rule cache1 r h

/-- Budget accounting for `_process_post_comments`. -/
theorem processPostComments_count (env : REnv) (postId : String)
    (u : Option String) (rule : Rule) (cache : ReplCache) (lc : PyTime) (m : Nat) :
    (processPostComments env postId u rule cache lc m).1 ≤ m ∧
    (processPostComments env postId u rule cache lc m).2.2.2.length ≤
      (processPostComments env postId u rule cache lc m).1 := by
  unfold processPostComments
  split
  · simp
  · obtain ⟨ha, hb, hc⟩ := commentLoop_count env u m
      ((env.getComments postId).filter (keepComment lc)) rule cache 0 (Nat.zero_le m)
    exact ⟨hb, by omega⟩

/-- Budget accounting for the per-rule post loop. -/
theorem ruleLoop_count (env : REnv) (u : Option String) (lc : PyTime)
    (pids : List String) (rule : Rule) (cache : ReplCache) (total : Nat)
    (h : total ≤ maxRepliesPerExecution) :
    (ruleLoop env u lc pids rule cache total).2.2.2 ≤ maxRepliesPerExecution ∧
    (ruleLoop env u lc pids rule cache total).2.2.1.length + total ≤
      (ruleLoop env u lc pids rule cache total).2.2.2 := by
  induction pids generalizing rule cache total with
  | nil => simp [ruleLoop, h]
  | cons pid rest ih =>
    simp only [ruleLoop]
    split
    · simp [h]
    · next hlt =>
      obtain ⟨hp1, hp2⟩ := processPostComments_count env pid u rule cache lc
        (maxRepliesPerExecution - total)
      rcases hP : processPostComments env pid u rule cache lc
        (maxRepliesPerExecution - total) with ⟨r, rule1, cache1, calls⟩
      rw [hP] at hp1 hp2
      simp only [maxRepliesPerExecution] at h hlt hp1 hp2 ⊢
      split
      · next hge =>
        dsimp only
        exact ⟨by omega, by omega⟩
      · next hge =>
        obtain ⟨hq1, hq2⟩ := ih rule1 cache1 (total + r)
          (by simp only [maxRepliesPerExecution]; omega)
        simp only [maxRepliesPerExecution] at hq1 hq2
        rcases hR : ruleLoop env u lc rest rule1 cache1 (total + r) with ⟨ru, ca, cs, t⟩
        rw [hR] at hq1 hq2
        dsimp only at hq1 hq2 ⊢
        refine ⟨hq1, ?_⟩
        rw [List.length_append]
        omega

/-- C10: one engine run for a single rule consumes at most 3 budget units,
every `post_comment` call — successful or not — is covered by one consumed
unit, and hence successes plus failures never exceed 3 in one tick. -/
theorem C10_theorem (env : REnv) (findAcct : Nat → Option SAccount)
    (cache : ReplCache) (rule : Rule) :
    (processRule env findAcct cache rule).totalReplies ≤ maxRepliesPerExecution ∧
    (processRule env findAcct cache rule).calls.length ≤
      (processRule env findAcct cache rule).totalReplies ∧
    countSuccess (processRule env findAcct cache rule).calls +
      countFailed (processRule env findAcct cache rule).calls ≤
        maxRepliesPerExecution := by
  have hmain :
      (processRule env findAcct cache rule).totalReplies ≤ maxRepliesPerExecution ∧
      (processRule env findAcct cache rule).calls.length ≤
        (processRule env findAcct cache rule).totalReplies := by
    unfold processRule
    split
    · simp
    next a ha =>
      split
      · simp
      · split
        · simp
        · split
          · simp
          · dsimp only
            obtain ⟨h1, h2⟩ := ruleLoop_count env a.platformUserId
              (rule.lastExecutionAt.getD (.naive (env.now - 600)))
              (env.shuffle rule.selectedInstagramPostIds) rule cache 0
              (Nat.zero_le _)
            have h2x : (ruleLoop env a.platformUserId
                (rule.lastExecutionAt.getD (.naive (env.now - 600)))
                (env.shuffle rule.selectedInstagramPostIds) rule cache 0).2.2.1.length ≤
                (ruleLoop env a.platformUserId
                  (rule.lastExecutionAt.getD (.naive (env.now - 600)))
                  (env.shuffle rule.selectedInstagramPostIds) rule cache 0).2.2.2 := by
              omega
            exact ⟨h1, h2x⟩
  refine ⟨hmain.1, hmain.2, ?_⟩
  rw [count_split]
  omega

/-- C3 counterexample: it is not the case that every processed due item has its
attempt counter incremented and its `last_publish_attempt` stamped — on the
disconnected-account path `publish_post` marks the row failed without touching
either, refuting the claimed bookkeeping-before-account-resolution order. -/
theorem C3_counterexample :
    ¬ (∀ (env : BEnv) (find : Nat → Option SAccount) (p : BPost),
        (publishPost env find p).publishAttempts = p.publishAttempts + 1 ∧
        (publishPost env find p).lastPublishAttempt = some env.now) := by
  intro h
  have hc := (h c3Env (fun _ => none) c3Post).1
  simp [publishPost, c3Post] at hc

/-- C3 (amended): `publish_post` resolves the owning account first; if it is
missing or disconnected the item is immediately marked failed with the
explanatory message and the attempt counter and timestamp are left untouched;
otherwise `publish_attempts` is incremented and `last_publish_attempt`
stamped before the adapter call, whose outcome decides published/failed. -/
theorem C3_amended (env : BEnv) (find : Nat → Option SAccount) (p : BPost) :
    (bAccountGone find p = true →
      publishPost env find p =
        { p with status := .failed,
                 errorMessage := some "Social account not connected" }) ∧
    (bAccountGone find p = false →
      (publishPost env find p).publishAttempts = p.publishAttempts + 1 ∧
      (publishPost env find p).lastPublishAttempt = some env.now ∧
      ((publishPost env find p).status = .published ∨
        (publishPost env find p).status = .failed)) := by
  unfold publishPost bAccountGone
  cases hf : find p.socialAccountId with
  | none => simp
  | some a =>
    cases hc : a.isConnected
    · simp [hc]
    · simp only [hc, Bool.not_true, Bool.false_eq_true, false_implies, true_and, if_true]
      cases env.fbPost _ <;> simp

/-- C3 witness: both branches of the amended statement at concrete inputs. -/
theorem C3_amended_witness :
    publishPost c3Env (fun _ => none) c3Post =
      { c3Post with status := .failed,
                    errorMessage := some "Social account not connected" } ∧
    (publishPost c3Env (fun _ => some c3Acct) c3Post).publishAttempts =
      c3Post.publishAttempts + 1 ∧
    (publishPost c3Env (fun _ => some c3Acct) c3Post).lastPublishAttempt =
      some c3Env.now ∧
    ((publishPost c3Env (fun _ => some c3Acct) c3Post).status = .published ∨
      (publishPost c3Env (fun _ => some c3Acct) c3Post).status = .failed) :=
  ⟨(C3_amended c3Env (fun _ => none) c3Post).1 (by decide),
   (C3_amended c3Env (fun _ => some c3Acct) c3Post).2 (by decide)⟩

/-- The attempt counter after `publish_post` is the old one (disconnected
path) or the old one plus one. -/
theorem publishPost_attempts (env : BEnv) (find : Nat → Option SAccount) (p : BPost) :
    (publishPost env find p).publishAttempts = p.publishAttempts ∨
    (publishPost env find p).publishAttempts = p.publishAttempts + 1 := by
  unfold publishPost
  cases hf : find p.socialAccountId with
  | none => simp
  | some a =>
    cases hc : a.isConnected
    · simp [hc]
    · simp only [hc, if_true]
      cases env.fbPost _ <;> simp

/-- `publish_post` never returns a scheduled row. -/
theorem publishPost_not_scheduled (env : BEnv) (find : Nat → Option SAccount)
    (p : BPost) : (publishPost env find p).status ≠ .scheduled := by
  unfold publishPost
  cases hf : find p.socialAccountId with
  | none => simp
  | some a =>
    cases hc : a.isConnected
    · simp [hc]
    · simp only [hc, if_true]
      cases env.fbPost _ <;> simp

/-- One bulk-loop or retry step preserves `BInv`. -/
theorem BStep_preserves (p q : BPost) (h : BStep p q) (hinv : BInv p) : BInv q := by
  obtain ⟨h3, h2⟩ := hinv
  cases h with
  | tick env find _ hs hd =>
    have ha := h2 hs
    rcases publishPost_attempts env find p with h1 | h1 <;>
      exact ⟨by omega, fun hsch => absurd hsch (publishPost_not_scheduled env find p)⟩
  | retry env find _ hs ha =>
    rcases publishPost_attempts env find { p with status := .scheduled } with h1 | h1 <;>
      · simp only at h1
        exact ⟨by omega, fun hsch => absurd hsch (publishPost_not_scheduled env find _)⟩

/-- `BInv` holds of every state reachable from a state satisfying it. -/
theorem BReach_inv (p0 p : BPost) (h0 : BInv p0) (hr : BReach p0 p) : BInv p := by
  induction hr with
  | refl => exact h0
  | tail _ hstep ih => exact BStep_preserves _ _ hstep ih

/-- Every bulk step is monotone in the attempt counter. -/
theorem BStep_mono (p q : BPost) (h : BStep p q) :
    p.publishAttempts ≤ q.publishAttempts := by
  cases h with
  | tick env find _ _ _ =>
    rcases publishPost_attempts env find p with h1 | h1 <;> omega
  | retry env find _ _ _ =>
    rcases publishPost_attempts env find { p with status := .scheduled } with h1 | h1 <;>
      · simp only at h1
        omega

/-- A failed row with 3 attempts is terminal: neither the due query nor the
retry query selects it. -/
theorem BStep_terminal (p q : BPost) (hs : p.status = .failed)
    (ha : 3 ≤ p.publishAttempts) : ¬ BStep p q := by
  intro h
  cases h with
  | tick env find _ hsch hd => rw [hs] at hsch; exact BStatus.noConfusion hsch
  | retry env find _ _ ha2 => omega

/-- C4: from a freshly created row (scheduled, zero attempts), along any
sequence of bulk-loop ticks and retry passes, `publish_attempts` never
exceeds 3 and is monotone at every step, and a failed row with 3 attempts is
never selected again. -/
theorem C4_theorem (p0 p q : BPost)
    (h0 : p0.status = .scheduled ∧ p0.publishAttempts = 0)
    (hr : BReach p0 p) :
    p.publishAttempts ≤ 3 ∧
    (BStep p q → p.publishAttempts ≤ q.publishAttempts) ∧
    (p.status = .failed → 3 ≤ p.publishAttempts → ¬ BStep p q) := by
  obtain ⟨hs0, ha0⟩ := h0
  have hinv : BInv p := BReach_inv p0 p ⟨by omega, fun _ => by omega⟩ hr
  exact ⟨hinv.1, BStep_mono p q, fun h1 h2 => BStep_terminal p q h1 h2⟩

/-- C4 witness: the theorem applied to the creation state itself. -/
theorem C4_theorem_witness :
    c4Init.publishAttempts ≤ 3 ∧
    (BStep c4Init c4Init → c4Init.publishAttempts ≤ c4Init.publishAttempts) ∧
    (c4Init.status = .failed → 3 ≤ c4Init.publishAttempts → ¬ BStep c4Init c4Init) :=
  C4_theorem c4Init c4Init c4Init ⟨rfl, rfl⟩ Relation.ReflTransGen.refl

/-- C1 counterexample: it is not the case that every due post either keeps its
state (account missing/disconnected) or ends inactive with a terminal status —
a due photo post owned by a connected account whose platform data lacks a page
access token is marked failed while `is_active` stays true. -/
theorem C1_counterexample :
    ¬ (∀ (env : SEnv) (find : Nat → Option SAccount) (p : SPost),
        isDue env.now p = true →
          (accountGone find p = true ∧ execPost env find p = p) ∨
          ((execPost env find p).isActive = false ∧
            ((execPost env find p).status = .posted ∨
              (execPost env find p).status = .failed))) := by
  intro h
  have hc := h c1Env c1Find c1Post (by decide)
  revert hc
  decide

/-- C1 (amended): after one Due-Post tick, every due post ends inactive with
status posted or failed, except that (a) a post whose owning account is
missing or disconnected keeps its status, `is_active` and `last_executed`
unchanged, and (b) a post whose connected account lacks a truthy page access
token or platform user id is marked failed with `is_active` and
`last_executed` left unchanged. -/
theorem C1_amended (env : SEnv) (find : Nat → Option SAccount) (p : SPost)
    (hdue : isDue env.now p = true) :
    ((execPost env find p).isActive = false ∧
      ((execPost env find p).status = .posted ∨ (execPost env find p).status = .failed)) ∨
    (accountGone find p = true ∧
      (execPost env find p).status = p.status ∧
      (execPost env find p).isActive = p.isActive ∧
      (execPost env find p).lastExecuted = p.lastExecuted) ∨
    ((∃ a, find p.socialAccountId = some a ∧ a.isConnected = true ∧
        (truthyOpt a.pageAccessToken && truthyOpt a.platformUserId) = false) ∧
      (execPost env find p).status = .failed ∧
      (execPost env find p).isActive = p.isActive ∧
      (execPost env find p).lastExecuted = p.lastExecuted) := by
  unfold execPost execPostT
  split
  · left
    exact ⟨rfl, Or.inr rfl⟩
  · rcases hm : mediaStep env p with ⟨em, tm⟩
    cases em with
    | error f =>
      obtain ⟨h1, h2⟩ := mediaStep_error env p f tm hm
      left
      exact ⟨h2, Or.inr h1⟩
    | ok cp =>
      rcases cp with ⟨c, pend⟩
      obtain ⟨m1, m2, m3, m4, m5, m6, m7, m8⟩ := mediaStep_ok env p c pend tm hm
      cases hf : find p.socialAccountId with
      | none =>
        right; left
        refine ⟨?_, m1, m2, m3⟩
        unfold accountGone
        rw [hf]
      | some a =>
        cases hcon : a.isConnected
        · simp only [hcon, Bool.not_false, if_true]
          right; left
          refine ⟨?_, m1, m2, m3⟩
          unfold accountGone
          rw [hf]
          simp [hcon]
        · simp only [hcon, Bool.not_true, Bool.false_eq_true, if_false]
          cases htok : truthyOpt a.pageAccessToken && truthyOpt a.platformUserId
          · simp only [htok, Bool.not_false, if_true]
            right; right
            exact ⟨⟨a, rfl, hcon, htok⟩, trivial, m5, m6⟩
          · simp only [htok, Bool.not_true, Bool.false_eq_true, if_false]
            cases hpt : pend.postType
            case text => exact absurd (hpt ▸ m7).symm m8
            all_goals
              cases env.createPost pend
              all_goals
                left
                first
                  | exact ⟨rfl, Or.inl rfl⟩
                  | exact ⟨rfl, Or.inr rfl⟩

/-- C1 witness: the amended statement evaluated at the concrete
token-missing instance. -/
theorem C1_amended_witness :
    ((execPost c1Env c1Find c1Post).isActive = false ∧
      ((execPost c1Env c1Find c1Post).status = .posted ∨
        (execPost c1Env c1Find c1Post).status = .failed)) ∨
    (accountGone c1Find c1Post = true ∧
      (execPost c1Env c1Find c1Post).status = c1Post.status ∧
      (execPost c1Env c1Find c1Post).isActive = c1Post.isActive ∧
      (execPost c1Env c1Find c1Post).lastExecuted = c1Post.lastExecuted) ∨
    ((∃ a, c1Find c1Post.socialAccountId = some a ∧ a.isConnected = true ∧
        (truthyOpt a.pageAccessToken && truthyOpt a.platformUserId) = false) ∧
      (execPost c1Env c1Find c1Post).status = .failed ∧
      (execPost c1Env c1Find c1Post).isActive = c1Post.isActive ∧
      (execPost c1Env c1Find c1Post).lastExecuted = c1Post.lastExecuted) :=
  C1_amended c1Env c1Find c1Post (by decide)

/-- C5: carousel media resolution under a resolvable account: a post with a
non-empty media list is submitted with no image-generator call; one with an
empty list triggers exactly `numImages` generator calls — between 3 and 5 for
every prompt — proceeds to submission iff at least 3 succeed, and otherwise
is marked failed and deactivated. -/
theorem C5_theorem (env : SEnv) (find : Nat → Option SAccount) (p : SPost)
    (hk : p.postType = .carousel) (hp : p.prompt.data.isEmpty = false)
    (hacct : ∃ a, find p.socialAccountId = some a ∧ a.isConnected = true ∧
      (truthyOpt a.pageAccessToken && truthyOpt a.platformUserId) = true) :
    (p.mediaUrls ≠ [] →
      (execPostT env find p).2.1 = [] ∧ (execPostT env find p).2.2 = true) ∧
    (p.mediaUrls = [] →
      (execPostT env find p).2.1 = carouselPrompts p.prompt ∧
      (carouselPrompts p.prompt).length = numImages p.prompt ∧
      3 ≤ numImages p.prompt ∧ numImages p.prompt ≤ 5 ∧
      (3 ≤ (carouselUrls env.genUpload p.prompt).length →
        (execPostT env find p).2.2 = true) ∧
      ((carouselUrls env.genUpload p.prompt).length < 3 →
        (execPostT env find p).2.2 = false ∧
        (execPostT env find p).1.status = .failed ∧
        (execPostT env find p).1.isActive = false)) := by
  obtain ⟨a, hf, hcon, htok⟩ := hacct
  have hlen : (carouselPrompts p.prompt).length = numImages p.prompt := by
    simp [carouselPrompts]
  have h3 : 3 ≤ numImages p.prompt := by
    unfold numImages
    exact le_min (by norm_num) (le_max_left _ _)
  have h5 : numImages p.prompt ≤ 5 := min_le_left _ _
  constructor
  · intro hne
    have hemp : p.mediaUrls.isEmpty = false := by
      cases hml : p.mediaUrls
      · exact absurd hml hne
      · rfl
    have hms : mediaStep env p = (.ok (p, p), []) := by
      unfold mediaStep
      rw [hk]
      simp [hemp]
    unfold execPostT
    simp only [hp, Bool.false_eq_true, if_false, hms, hf, hcon, htok,
      Bool.not_true, hk]
    cases hcp : env.createPost p <;> exact ⟨rfl, rfl⟩
  · intro hem
    have hemp : p.mediaUrls.isEmpty = true := by
      rw [hem]
      rfl
    by_cases hgen : 3 ≤ (carouselUrls env.genUpload p.prompt).length
    · have hne2 : (carouselUrls env.genUpload p.prompt).isEmpty = false := by
        rcases hu : carouselUrls env.genUpload p.prompt with _ | ⟨x, xs⟩
        · rw [hu] at hgen
          simp at hgen
        · rfl
      have hms : mediaStep env p =
          (.ok (p, { p with mediaUrls := carouselUrls env.genUpload p.prompt }),
            carouselPrompts p.prompt) := by
        unfold mediaStep
        rw [hk]
        simp [hemp, hgen, hne2]
      have htr : (execPostT env find p).2.1 = carouselPrompts p.prompt ∧
          (execPostT env find p).2.2 = true := by
        unfold execPostT
        simp only [hp, Bool.false_eq_true, if_false, hms, hf, hcon, htok,
          Bool.not_true, hk]
        constructor
        · split <;> rfl
        · split <;> rfl
      exact ⟨htr.1, hlen, h3, h5, fun _ => htr.2, fun hlt => absurd hgen (by omega)⟩
    · have hms : mediaStep env p = (.error (failNow env.now p), carouselPrompts p.prompt) := by
        unfold mediaStep
        rw [hk]
        simp [hemp, hgen]
      have hexec : execPostT env find p =
          (failNow env.now p, carouselPrompts p.prompt, false) := by
        unfold execPostT
        simp only [hp, Bool.false_eq_true, if_false, hms]
      refine ⟨?_, hlen, h3, h5, fun hge => absurd hge hgen, fun _ => ?_⟩
      · rw [hexec]
      · rw [hexec]
        exact ⟨rfl, rfl, rfl⟩

/-- C5 witness: the theorem evaluated on the concrete carousel post. -/
theorem C5_theorem_witness :
    (c5Post.mediaUrls ≠ [] →
      (execPostT c5Env c5Find c5Post).2.1 = [] ∧
      (execPostT c5Env c5Find c5Post).2.2 = true) ∧
    (c5Post.mediaUrls = [] →
      (execPostT c5Env c5Find c5Post).2.1 = carouselPrompts c5Post.prompt ∧
      (carouselPrompts c5Post.prompt).length = numImages c5Post.prompt ∧
      3 ≤ numImages c5Post.prompt ∧ numImages c5Post.prompt ≤ 5 ∧
      (3 ≤ (carouselUrls c5Env.genUpload c5Post.prompt).length →
        (execPostT c5Env c5Find c5Post).2.2 = true) ∧
      ((carouselUrls c5Env.genUpload c5Post.prompt).length < 3 →
        (execPostT c5Env c5Find c5Post).2.2 = false ∧
        (execPostT c5Env c5Find c5Post).1.status = .failed ∧
        (execPostT c5Env c5Find c5Post).1.isActive = false)) :=
  C5_theorem c5Env c5Find c5Post rfl rfl ⟨c5Acct, rfl, rfl, by decide⟩

end DashAuto

